import Mathlib

/-!
Verification of the MCP tool server (`src/index.ts`).

The file shallowly embeds the six tool handlers (`greet`, `calculator`,
`time`, `geocode`, `get-weather`, `generate-image`), the `server-info`
introspection resource, and the response-envelope construction.  Upstream
HTTP services, the JS `Intl` date renderer and the inference client are
external collaborators; they enter the embedding as explicit outcome
parameters (oracles), so every handler is a total function from its
validated input plus the oracle outcome to an `Except`-style result.
JS numbers are modelled as rationals together with explicit models of the
number-to-string coercion and `parseFloat`.
-/

namespace Mcp

/-- One content item of a tool response: either text, or base64 image data
with a MIME type (mirrors the `{type:'text',text}` / `{type:'image',data,mimeType}`
objects of the source). -/
inductive ContentItem where
  | text (text : String)
  | image (data : String) (mimeType : String)
deriving DecidableEq, Repr

/-- The `structuredContent` field of a response: a record holding a content list. -/
structure StructuredContent where
  content : List ContentItem
deriving DecidableEq, Repr

/-- The dual-representation response envelope: a display `content` list and a
`structuredContent` record, each written out separately by every handler in the
source. -/
structure Envelope where
  content : List ContentItem
  structuredContent : StructuredContent
deriving DecidableEq, Repr

/-- Substring occurrence on character lists: `occursIn n hay` is true when the
list `n` appears contiguously inside `hay`. -/
def occursIn (n : List Char) : List Char → Bool
  | [] => List.isPrefixOf n []
  | c :: t => List.isPrefixOf n (c :: t) || occursIn n t

/-- String-level substring test via `occursIn` on the underlying data. -/
def strOccurs (n hay : String) : Bool :=
  occursIn n.data hay.data

theorem data_append_eq (s t : String) : (s ++ t).data = s.data ++ t.data := by
  cases s with
  | mk a => cases t with
    | mk b => rfl

theorem isPrefixOf_self_append (n l : List Char) :
    List.isPrefixOf n (n ++ l) = true := by
  induction n with
  | nil => simp [List.isPrefixOf]
  | cons c t ih => simp [List.isPrefixOf, ih]

theorem occursIn_of_isPrefixOf {n hay : List Char}
    (h : List.isPrefixOf n hay = true) : occursIn n hay = true := by
  cases hay with
  | nil => simpa [occursIn] using h
  | cons c t => simp [occursIn, h]

theorem occursIn_self_append (n l : List Char) :
    occursIn n (n ++ l) = true :=
  occursIn_of_isPrefixOf (isPrefixOf_self_append n l)

theorem occursIn_append_right {n l2 : List Char} (l1 : List Char)
    (h : occursIn n l2 = true) : occursIn n (l1 ++ l2) = true := by
  induction l1 with
  | nil => simpa using h
  | cons c t ih => simp [occursIn, ih]

/-- Decimal value of a list of digit characters (most significant first). -/
def digitsVal (cs : List Char) : Nat :=
  cs.foldl (fun a c => a * 10 + (c.toNat - '0'.toNat)) 0

/-- Fractional decimal digits of `r / d`, at most `fuel` of them, stopping at a
zero remainder (models how JS prints the fractional part of a finite decimal). -/
def fracDigits (d : Nat) : Nat → Nat → String
  | _, 0 => ""
  | r, fuel + 1 =>
    if r = 0 then ""
    else Nat.repr (r * 10 / d) ++ fracDigits d (r * 10 % d) fuel

/-- Model of the JS number-to-string coercion (template-literal interpolation)
restricted to rationals: integers print without a decimal point (`127.0`
prints as `127`), other values print sign, integer part, `.` and the decimal
digits (up to 17, as JS does for double precision). -/
def jsNumToString (q : Rat) : String :=
  let sign := if q < 0 then "-" else ""
  let n := q.num.natAbs
  let d := q.den
  if n % d = 0 then sign ++ Nat.repr (n / d)
  else sign ++ Nat.repr (n / d) ++ "." ++ fracDigits d (n % d) 17

/-- Model of JS `parseFloat` on plain decimal strings: optional sign, integer
digits, optional `.` and fraction digits; trailing characters are ignored.
(The NaN result for entirely non-numeric input is not modelled; no claim
exercises it.) -/
def jsParseFloat (s : String) : Rat :=
  let cs := s.data
  let signAndRest : Bool × List Char :=
    match cs with
    | '-' :: rest => (true, rest)
    | '+' :: rest => (false, rest)
    | _ => (false, cs)
  let neg := signAndRest.1
  let body := signAndRest.2
  let intPart := body.takeWhile Char.isDigit
  let afterInt := body.dropWhile Char.isDigit
  let fracPart :=
    match afterInt with
    | '.' :: r => r.takeWhile Char.isDigit
    | _ => []
  let scale : Nat := 10 ^ fracPart.length
  let mag : Nat := digitsVal intPart * scale + digitsVal fracPart
  if neg then Rat.divInt (-(mag : Int)) (scale : Int)
  else Rat.divInt (mag : Int) (scale : Int)

/-- Model of the JS `a || b` fallback on an optional string: an absent value or
the empty string (both falsy) yield the fallback. -/
def jsOrStr (o : Option String) (fallback : String) : String :=
  match o with
  | none => fallback
  | some s => if s = "" then fallback else s

/-- The `language` argument of the `greet` tool (`z.enum(['ko','en'])`). -/
inductive Language where
  | ko
  | en
deriving DecidableEq, Repr

/-- Handler of the `greet` tool: picks the Korean or English template and
returns the dual envelope with the greeting as the single text item. -/
def greet (name : String) (language : Language) : Envelope :=
  let greeting :=
    match language with
    | .ko => "안녕하세요, " ++ name ++ "님!"
    | .en => "Hey there, " ++ name ++ "! 👋 Nice to meet you!"
  { content := [ContentItem.text greeting],
    structuredContent := { content := [ContentItem.text greeting] } }

/-- The `operator` argument of the `calculator` tool (`z.enum(['+','-','*','/'])`). -/
inductive Op where
  | add
  | sub
  | mul
  | div
deriving DecidableEq, Repr

/-- Rendering of an operator back to its source symbol. -/
def opSymbol : Op → String
  | .add => "+"
  | .sub => "-"
  | .mul => "*"
  | .div => "/"

/-- The `switch (operator)` block of the calculator handler: the four
arithmetic cases, with the division case throwing on a zero right operand. -/
def calcResult (number1 number2 : Rat) : Op → Except String Rat
  | .add => .ok (number1 + number2)
  | .sub => .ok (number1 - number2)
  | .mul => .ok (number1 * number2)
  | .div =>
    if number2 = 0 then .error "0으로 나눌 수 없습니다."
    else .ok (number1 / number2)

/-- Handler of the `calculator` tool: computes the result via the switch,
renders `"<n1> <op> <n2> = <result>"` and wraps it in the dual envelope.
The division-by-zero throw propagates uncaught (there is no try/catch in this
handler). -/
def calculator (number1 number2 : Rat) (operator : Op) : Except String Envelope :=
  match calcResult number1 number2 operator with
  | .error e => .error e
  | .ok result =>
    let resultText :=
      jsNumToString number1 ++ " " ++ opSymbol operator ++ " " ++
        jsNumToString number2 ++ " = " ++ jsNumToString result
    .ok { content := [ContentItem.text resultText],
          structuredContent := { content := [ContentItem.text resultText] } }

/-- Specification-side arithmetic: the operation named by each operator. -/
def applyOp : Op → Rat → Rat → Rat
  | .add => fun a b => a + b
  | .sub => fun a b => a - b
  | .mul => fun a b => a * b
  | .div => fun a b => a / b

/-- Handler of the `time` tool.  The `Intl.DateTimeFormat` render attempt is an
external-runtime oracle, passed in as its outcome: `.error ()` when the
formatter construction/format throws (unknown timezone), `.ok s` when it
produces the formatted string `s`.  Any renderer failure is caught and
re-expressed as the invalid-timezone message. -/
def time (timezone : String) (fmt : Except Unit String) : Except String Envelope :=
  match fmt with
  | .error _ => .error ("유효하지 않은 타임존입니다: " ++ timezone)
  | .ok formattedTime =>
    let resultText := timezone ++ "의 현재 시간: " ++ formattedTime
    .ok { content := [ContentItem.text resultText],
          structuredContent := { content := [ContentItem.text resultText] } }

/-- A wall-clock instant, as the fields the formatter renders. -/
structure DateTime where
  year : Nat
  month : Nat
  day : Nat
  hour : Nat
  minute : Nat
  second : Nat
deriving DecidableEq, Repr

/-- Modelled from the spec: the `Intl.DateTimeFormat('ko-KR', ...)` renderer
invoked by the `time` handler lives in the JS runtime and is absent from the
source; per the spec's fixed display format it renders a 4-digit year, then
`-`, then 2-digit month, day, hour, minute and second fields on a 24-hour
clock (`YYYY-MM-DD HH:MM:SS`). -/
def intlFormatTime (dt : DateTime) : String :=
  String.mk
    [Nat.digitChar (dt.year / 1000 % 10), Nat.digitChar (dt.year / 100 % 10),
     Nat.digitChar (dt.year / 10 % 10), Nat.digitChar (dt.year % 10), '-',
     Nat.digitChar (dt.month / 10 % 10), Nat.digitChar (dt.month % 10), '-',
     Nat.digitChar (dt.day / 10 % 10), Nat.digitChar (dt.day % 10), ' ',
     Nat.digitChar (dt.hour / 10 % 10), Nat.digitChar (dt.hour % 10), ':',
     Nat.digitChar (dt.minute / 10 % 10), Nat.digitChar (dt.minute % 10), ':',
     Nat.digitChar (dt.second / 10 % 10), Nat.digitChar (dt.second % 10)]

/-- Shape check for the fixed display format: 19 characters, a 4-digit year,
then `-`, then 2-digit month/day separated by `-`, a space, and 2-digit
hour/minute/second separated by `:`. -/
def matchesClockFormat (s : String) : Bool :=
  match s.data with
  | [y1, y2, y3, y4, s1, mo1, mo2, s2, d1, d2, sp, h1, h2, c1, mi1, mi2, c2, se1, se2] =>
    y1.isDigit && y2.isDigit && y3.isDigit && y4.isDigit && (s1 == '-') &&
    mo1.isDigit && mo2.isDigit && (s2 == '-') && d1.isDigit && d2.isDigit &&
    (sp == ' ') && h1.isDigit && h2.isDigit && (c1 == ':') &&
    mi1.isDigit && mi2.isDigit && (c2 == ':') && se1.isDigit && se2.isDigit
  | _ => false

theorem digitChar_mod_ten_isDigit (n : Nat) :
    (Nat.digitChar (n % 10)).isDigit = true := by
  have h : n % 10 < 10 := Nat.mod_lt _ (by omega)
  interval_cases h' : n % 10 <;> rfl

/-- One element of the geocoding upstream's JSON array response. -/
structure GeoResult where
  lat : String
  lon : String
  display_name : Option String
deriving DecidableEq, Repr

/-- Outcome of the geocoding upstream HTTP call: a non-success status (with
status text), or a success carrying the parsed JSON array. -/
inductive GeoOutcome where
  | fail (status : Nat) (statusText : String)
  | ok (data : List GeoResult)
deriving DecidableEq, Repr

/-- Handler of the `geocode` tool.  A non-success response throws the
`API 요청 실패` error inside the try block, which the catch re-wraps with the
`지오코딩 실패: ` prefix.  An empty result array returns (not fails) the
no-results message; otherwise the first element's coordinates are parsed with
`parseFloat`, the display name falls back to the query, and the address text
is rendered. -/
def geocode (query : String) (resp : GeoOutcome) : Except String Envelope :=
  match resp with
  | .fail status statusText =>
    .error ("지오코딩 실패: " ++ ("API 요청 실패: " ++ Nat.repr status ++ " " ++ statusText))
  | .ok data =>
    match data with
    | [] =>
      .ok { content :=
              [ContentItem.text ("\"" ++ query ++ "\"에 대한 검색 결과를 찾을 수 없습니다.")],
            structuredContent :=
              { content :=
                  [ContentItem.text ("\"" ++ query ++ "\"에 대한 검색 결과를 찾을 수 없습니다.")] } }
    | result :: _ =>
      let lat := jsParseFloat result.lat
      let lon := jsParseFloat result.lon
      let displayName := jsOrStr result.display_name query
      let resultText :=
        "주소: " ++ displayName ++ "\n위도: " ++ jsNumToString lat ++
          "\n경도: " ++ jsNumToString lon ++ "\n좌표: (" ++ jsNumToString lat ++
          ", " ++ jsNumToString lon ++ ")"
      .ok { content := [ContentItem.text resultText],
            structuredContent := { content := [ContentItem.text resultText] } }

/-- The weather-code lookup table: known numeric codes map to Korean
descriptions, unlisted codes render as `날씨 코드: <n>`. -/
def getWeatherDescription (code : Nat) : String :=
  match code with
  | 0 => "맑음"
  | 1 => "대체로 맑음"
  | 2 => "부분적으로 흐림"
  | 3 => "흐림"
  | 45 => "안개"
  | 48 => "서리 안개"
  | 51 => "약한 이슬비"
  | 53 => "중간 이슬비"
  | 55 => "강한 이슬비"
  | 56 => "약한 동결 이슬비"
  | 57 => "강한 동결 이슬비"
  | 61 => "약한 비"
  | 63 => "중간 비"
  | 65 => "강한 비"
  | 66 => "약한 동결 비"
  | 67 => "강한 동결 비"
  | 71 => "약한 눈"
  | 73 => "중간 눈"
  | 75 => "강한 눈"
  | 77 => "눈알갱이"
  | 80 => "약한 소나기"
  | 81 => "중간 소나기"
  | 82 => "강한 소나기"
  | 85 => "약한 눈 소나기"
  | 86 => "강한 눈 소나기"
  | 95 => "뇌우"
  | 96 => "우박을 동반한 뇌우"
  | 99 => "강한 우박을 동반한 뇌우"
  | n => "날씨 코드: " ++ Nat.repr n

/-- The `hourly` object of the forecast upstream response; every field is
optional, as the handler accesses them through optional chaining. -/
structure Hourly where
  time : Option (List String) := none
  temperature_2m : Option (List Rat) := none
  relative_humidity_2m : Option (List Rat) := none
  wind_speed_10m : Option (List Rat) := none
  weather_code : Option (List Nat) := none
deriving DecidableEq, Repr

/-- The `daily` object of the forecast upstream response; the handler guards on
`daily.time` and defaults the remaining arrays to `[]` when absent. -/
structure Daily where
  time : Option (List String) := none
  temperature_2m_max : Option (List Rat) := none
  temperature_2m_min : Option (List Rat) := none
  precipitation_sum : Option (List Rat) := none
  weather_code : Option (List Nat) := none
deriving DecidableEq, Repr

/-- The parsed JSON body of a successful forecast response: the
upstream-declared error flag with its reason, plus the hourly and daily data. -/
structure WeatherData where
  error : Bool := false
  reason : Option String := none
  hourly : Option Hourly := none
  daily : Option Daily := none
deriving DecidableEq, Repr

/-- Outcome of the forecast upstream HTTP call. -/
inductive WeatherOutcome where
  | fail (status : Nat) (statusText : String)
  | ok (data : WeatherData)
deriving DecidableEq, Repr

/-- Indexing into a JS number array as rendered into a template literal: an
out-of-range index produces `undefined`. -/
def idxNum (l : List Rat) (i : Nat) : String :=
  match l.get? i with
  | some v => jsNumToString v
  | none => "undefined"

/-- The 40-character divider the weather handler prints under each heading. -/
def dividerLine : String :=
  "━━━━━━━━━━━━━━━━━━━━━━━━━━━━━━━━━━━━━━━━"

/-- One per-day forecast block of the loop body: the localized date (via the
external `toLocaleDateString` oracle `dateFmt`), max/min temperature,
precipitation sum and condition description, each line ending in a newline. -/
def weatherDayBlock (dateFmt : String → String) (dly : Daily) (ts : List String)
    (i : Nat) : String :=
  let dateStr := dateFmt (ts.getD i "")
  dateStr ++ "\n" ++
    "  최고: " ++ idxNum (dly.temperature_2m_max.getD []) i ++ "°C | 최저: " ++
      idxNum (dly.temperature_2m_min.getD []) i ++ "°C\n" ++
    "  강수량: " ++ idxNum (dly.precipitation_sum.getD []) i ++ "mm\n" ++
    "  날씨: " ++
      (match (dly.weather_code.getD []).get? i with
       | some c => getWeatherDescription c
       | none => "날씨 코드: undefined") ++ "\n"

/-- The list of day blocks the loop renders: one block per index below
`min(forecast_days, daily.time.length)`. -/
def weatherDayBlocks (dateFmt : String → String) (dly : Daily) (ts : List String)
    (forecast_days : Nat) : List String :=
  (List.range (min forecast_days ts.length)).map (weatherDayBlock dateFmt dly ts)

/-- Joining of the day blocks: the loop appends a blank separator line after
every block except the last. -/
def joinBlocks : List String → String
  | [] => ""
  | [b] => b
  | b :: r => b ++ "\n" ++ joinBlocks r

/-- The current-conditions section of the weather text: location and horizon
header, the first hourly sample's time (falling back to `현재`), and one line
per present hourly field. -/
def weatherCurrent (latitude longitude : Rat) (forecast_days : Nat)
    (data : WeatherData) : String :=
  let currentTime := jsOrStr ((data.hourly.bind Hourly.time).bind List.head?) "현재"
  let currentTemp := (data.hourly.bind Hourly.temperature_2m).bind List.head?
  let currentHumidity := (data.hourly.bind Hourly.relative_humidity_2m).bind List.head?
  let currentWindSpeed := (data.hourly.bind Hourly.wind_speed_10m).bind List.head?
  let currentWeatherCode := (data.hourly.bind Hourly.weather_code).bind List.head?
  "📍 위치: 위도 " ++ jsNumToString latitude ++ ", 경도 " ++ jsNumToString longitude ++ "\n" ++
    "⏰ 예보 기간: " ++ Nat.repr forecast_days ++ "일\n\n" ++
    "🌤️ 현재 날씨 (" ++ currentTime ++ ")\n" ++
    dividerLine ++ "\n" ++
    (match currentTemp with
     | some v => "온도: " ++ jsNumToString v ++ "°C\n"
     | none => "") ++
    (match currentHumidity with
     | some v => "습도: " ++ jsNumToString v ++ "%\n"
     | none => "") ++
    (match currentWindSpeed with
     | some v => "풍속: " ++ jsNumToString v ++ " km/h\n"
     | none => "") ++
    (match currentWeatherCode with
     | some c => "날씨: " ++ getWeatherDescription c ++ "\n"
     | none => "") ++
    "\n"

/-- The full weather text: the current-conditions section followed, when
`daily` and `daily.time` are present, by the forecast heading and the joined
day blocks. -/
def weatherText (latitude longitude : Rat) (forecast_days : Nat)
    (dateFmt : String → String) (data : WeatherData) : String :=
  weatherCurrent latitude longitude forecast_days data ++
    (match data.daily with
     | some dly =>
       match dly.time with
       | some ts =>
         "📅 " ++ Nat.repr forecast_days ++ "일 예보\n" ++ dividerLine ++ "\n" ++
           joinBlocks (weatherDayBlocks dateFmt dly ts forecast_days)
       | none => ""
     | none => "")

/-- Handler of the `get-weather` tool.  A non-success status throws the
`API 요청 실패` error and an upstream-declared error field throws its reason
(defaulted); both are re-wrapped by the catch with the `날씨 정보 조회 실패: `
prefix.  Otherwise the weather text is wrapped in the dual envelope. -/
def getWeather (latitude longitude : Rat) (forecast_days : Nat)
    (dateFmt : String → String) (resp : WeatherOutcome) : Except String Envelope :=
  match resp with
  | .fail status statusText =>
    .error ("날씨 정보 조회 실패: " ++
      ("API 요청 실패: " ++ Nat.repr status ++ " " ++ statusText))
  | .ok data =>
    if data.error then
      .error ("날씨 정보 조회 실패: " ++ jsOrStr data.reason "알 수 없는 오류가 발생했습니다.")
    else
      let resultText := weatherText latitude longitude forecast_days dateFmt data
      .ok { content := [ContentItem.text resultText],
            structuredContent := { content := [ContentItem.text resultText] } }

/-- The base64 alphabet used by `Buffer.toString('base64')`. -/
def base64Alphabet : List Char :=
  "ABCDEFGHIJKLMNOPQRSTUVWXYZabcdefghijklmnopqrstuvwxyz0123456789+/".data

/-- Character of the base64 alphabet at a 6-bit index. -/
def b64c (n : Nat) : Char :=
  base64Alphabet.getD n 'A'

/-- Standard base64 encoding of a byte list (model of
`Buffer.from(arrayBuffer).toString('base64')`). -/
def base64Encode : List Nat → String
  | [] => ""
  | [b1] => String.mk [b64c (b1 / 4), b64c (b1 % 4 * 16), '=', '=']
  | [b1, b2] =>
    String.mk [b64c (b1 / 4), b64c (b1 % 4 * 16 + b2 / 16), b64c (b2 % 16 * 4), '=']
  | b1 :: b2 :: b3 :: rest =>
    String.mk [b64c (b1 / 4), b64c (b1 % 4 * 16 + b2 / 16),
      b64c (b2 % 16 * 4 + b3 / 64), b64c (b3 % 64)] ++ base64Encode rest

/-- Handler of the `generate-image` tool.  `hfToken` is the `HF_TOKEN` entry of
the process configuration; `inference` is the hosted inference client as an
oracle from (token, prompt) to either a provider error message or the raw
image bytes.  The second component of the result is the trace of issued
inference requests, so an empty trace witnesses that no network call was
attempted.  The token check happens before the client is constructed, and
every throw is re-wrapped by the catch with the `이미지 생성 실패: ` prefix. -/
def generateImage (prompt : String) (hfToken : Option String)
    (inference : String → String → Except String (List Nat)) :
    Except String Envelope × List String :=
  match hfToken with
  | none =>
    (.error ("이미지 생성 실패: " ++
      "HF_TOKEN이 설정되지 않았습니다. 이미지 생성을 사용하려면 Hugging Face 토큰을 설정해주세요."), [])
  | some token =>
    match inference token prompt with
    | .error e => (.error ("이미지 생성 실패: " ++ e), [prompt])
    | .ok bytes =>
      let base64Image := base64Encode bytes
      (.ok { content := [ContentItem.image base64Image "image/png"],
             structuredContent :=
               { content := [ContentItem.image base64Image "image/png"] } },
       [prompt])

/-- Primitive kind of a tool parameter. -/
inductive PType where
  | string
  | number
deriving DecidableEq, Repr

/-- A default value of a tool parameter (string or numeric). -/
inductive DVal where
  | str (s : String)
  | num (q : Rat)
deriving DecidableEq, Repr

/-- Constraint metadata of one tool parameter: primitive type, whether an
integer constraint is declared, enumerated allowed values, optionality,
default, and numeric bounds.  (Human-readable descriptions carry no
constraints and are omitted.) -/
structure ParamSpec where
  type : PType
  isInt : Bool := false
  enumVals : Option (List String) := none
  optional : Bool := false
  dflt : Option DVal := none
  min : Option Int := none
  max : Option Int := none
deriving DecidableEq, Repr

/-- The declared input contract of each registered tool, transliterated from
the `inputSchema` zod objects of the six `registerTool` calls, in registration
order.  Note `forecast_days` is `z.number().int().min(1).max(16).optional().default(7)`:
it carries an integer constraint. -/
def registeredTools : List (String × List (String × ParamSpec)) :=
  [("greet",
    [("name", { type := .string }),
     ("language",
      { type := .string, enumVals := some ["ko", "en"], optional := true,
        dflt := some (.str "en") })]),
   ("calculator",
    [("number1", { type := .number }),
     ("number2", { type := .number }),
     ("operator", { type := .string, enumVals := some ["+", "-", "*", "/"] })]),
   ("time",
    [("timezone", { type := .string })]),
   ("geocode",
    [("query", { type := .string })]),
   ("get-weather",
    [("latitude", { type := .number }),
     ("longitude", { type := .number }),
     ("forecast_days",
      { type := .number, isInt := true, optional := true, dflt := some (.num 7),
        min := some 1, max := some 16 })]),
   ("generate-image",
    [("prompt", { type := .string })])]

/-- The tool listing advertised by the `server-info` resource, transliterated
from the hand-written `serverInfo.tools` literal.  The `forecast_days` entry
declares `type: 'number'`, optionality, default and bounds but no integer
constraint, so its `isInt` is `false`. -/
def serverInfoTools : List (String × List (String × ParamSpec)) :=
  [("greet",
    [("name", { type := .string }),
     ("language",
      { type := .string, enumVals := some ["ko", "en"], optional := true,
        dflt := some (.str "en") })]),
   ("calculator",
    [("number1", { type := .number }),
     ("number2", { type := .number }),
     ("operator", { type := .string, enumVals := some ["+", "-", "*", "/"] })]),
   ("time",
    [("timezone", { type := .string })]),
   ("geocode",
    [("query", { type := .string })]),
   ("get-weather",
    [("latitude", { type := .number }),
     ("longitude", { type := .number }),
     ("forecast_days",
      { type := .number, optional := true, dflt := some (.num 7),
        min := some 1, max := some 16 })]),
   ("generate-image",
    [("prompt", { type := .string })])]

/-- The `totalTools` field of the `server-info` document. -/
def serverInfoTotalTools : Nat := 6

/-- Erasure of the integer constraint from a parameter. -/
def eraseInt (p : ParamSpec) : ParamSpec :=
  { p with isInt := false }

/-- A message has the `"<operation> failed: <cause>"` structure when it is an
operation name followed by the failure separator and a cause message (the
source's realization of "failed" is ` 실패: `). -/
def opFailedShape (msg : String) : Prop :=
  ∃ op cause, msg = op ++ " 실패: " ++ cause

/-- Dual-representation invariant of one handler outcome: whenever a result is
produced, its structured content list equals its display content list. -/
def dupOk : Except String Envelope → Prop
  | .error _ => True
  | .ok e => e.structuredContent.content = e.content

/-- The no-results message of the geocode handler, as a function of the query. -/
def geoNoResultsText (query : String) : String :=
  "\"" ++ query ++ "\"에 대한 검색 결과를 찾을 수 없습니다."

/-- The address message of the geocode handler, as a function of the display
name it settled on and the raw coordinate strings of the first result. -/
def geoAddressText (displayName latS lonS : String) : String :=
  "주소: " ++ displayName ++ "\n위도: " ++ jsNumToString (jsParseFloat latS) ++
    "\n경도: " ++ jsNumToString (jsParseFloat lonS) ++ "\n좌표: (" ++
    jsNumToString (jsParseFloat latS) ++ ", " ++ jsNumToString (jsParseFloat lonS) ++ ")"

instance instDecEqExcept {ε α : Type} [DecidableEq ε] [DecidableEq α] :
    DecidableEq (Except ε α) := fun a b =>
  match a, b with
  | .error e, .error f => decidable_of_iff (e = f) (by simp)
  | .ok x, .ok y => decidable_of_iff (x = y) (by simp)
  | .error _, .ok _ => isFalse fun h => Except.noConfusion h
  | .ok _, .error _ => isFalse fun h => Except.noConfusion h

theorem strOccurs_of_data (n s : String) (a b : List Char)
    (h : s.data = a ++ (n.data ++ b)) : strOccurs n s = true := by
  unfold strOccurs
  rw [h]
  exact occursIn_append_right a (occursIn_self_append n.data b)

/-- Claim C1: for every tool invocation that returns a result (greet,
calculator, time, geocode, get-weather, generate-image), the structured form
of the response envelope deep-equals the display form: the
`structuredContent.content` sequence is element-for-element identical to the
`content` sequence. -/
theorem structured_equals_display :
    (∀ name language, (greet name language).structuredContent.content = (greet name language).content)
    ∧ (∀ number1 number2 operator, dupOk (calculator number1 number2 operator))
    ∧ (∀ timezone fmt, dupOk (time timezone fmt))
    ∧ (∀ query resp, dupOk (geocode query resp))
    ∧ (∀ latitude longitude forecast_days dateFmt resp,
        dupOk (getWeather latitude longitude forecast_days dateFmt resp))
    ∧ (∀ prompt hfToken inference, dupOk (generateImage prompt hfToken inference).1) := by
  refine ⟨fun name language => rfl, ?_, ?_, ?_, ?_, ?_⟩
  · intro number1 number2 operator
    rcases hc : calcResult number1 number2 operator with e | r <;>
      simp [calculator, hc, dupOk]
  · intro timezone fmt
    cases fmt <;> simp [time, dupOk]
  · intro query resp
    rcases resp with ⟨st, sx⟩ | data
    · simp [geocode, dupOk]
    · rcases data with _ | ⟨r, rest⟩ <;> simp [geocode, dupOk]
  · intro latitude longitude forecast_days dateFmt resp
    rcases resp with ⟨st, sx⟩ | data
    · simp [getWeather, dupOk]
    · rcases hb : data.error <;> simp [getWeather, hb, dupOk]
  · intro prompt hfToken inference
    rcases hfToken with _ | token
    · simp [generateImage, dupOk]
    · rcases hi : inference token prompt with e | bytes <;>
        simp [generateImage, hi, dupOk]

theorem structured_equals_display_witness :
    (greet "민수" Language.ko).structuredContent.content = (greet "민수" Language.ko).content
    ∧ dupOk (calculator 1 2 Op.add)
    ∧ dupOk (time "UTC" (Except.ok "2025-12-15 13:05:22"))
    ∧ dupOk (geocode "Seoul" (GeoOutcome.ok [{ lat := "37.5", lon := "127.0", display_name := some "Seoul" }]))
    ∧ dupOk (getWeather 37.5 127 3 (fun s => s) (WeatherOutcome.ok {}))
    ∧ dupOk (generateImage "a cat" (some "token") fun _ _ => Except.ok [77, 97, 110]).1 :=
  ⟨structured_equals_display.1 "민수" Language.ko,
   structured_equals_display.2.1 1 2 Op.add,
   structured_equals_display.2.2.1 "UTC" (Except.ok "2025-12-15 13:05:22"),
   structured_equals_display.2.2.2.1 "Seoul"
     (GeoOutcome.ok [{ lat := "37.5", lon := "127.0", display_name := some "Seoul" }]),
   structured_equals_display.2.2.2.2.1 37.5 127 3 (fun s => s) (WeatherOutcome.ok {}),
   structured_equals_display.2.2.2.2.2 "a cat" (some "token") fun _ _ => Except.ok [77, 97, 110]⟩

/-- Claim C3: for every `number1`, invoking the calculator with operator `/`
and `number2 = 0` fails with the division-by-zero error (the handler raises
before producing any result text). -/
theorem calculator_div_zero (number1 : Rat) :
    calculator number1 0 Op.div = .error "0으로 나눌 수 없습니다." := by
  simp [calculator, calcResult]

/-- Claim C4: for every valid calculator input except `/` with `number2 = 0`,
the single text content item equals `"<n1> <op> <n2> = <result>"` where the
result is the value of applying the named arithmetic operation to the two
numbers. -/
theorem calculator_correct (number1 number2 : Rat) (operator : Op)
    (h : ¬(operator = Op.div ∧ number2 = 0)) :
    calculator number1 number2 operator =
      .ok { content :=
              [ContentItem.text (jsNumToString number1 ++ " " ++ opSymbol operator ++
                " " ++ jsNumToString number2 ++ " = " ++
                jsNumToString (applyOp operator number1 number2))],
            structuredContent :=
              { content :=
                  [ContentItem.text (jsNumToString number1 ++ " " ++ opSymbol operator ++
                    " " ++ jsNumToString number2 ++ " = " ++
                    jsNumToString (applyOp operator number1 number2))] } } := by
  cases operator with
  | add => rfl
  | sub => rfl
  | mul => rfl
  | div =>
    have hn : number2 ≠ 0 := fun he => h ⟨rfl, he⟩
    simp [calculator, calcResult, applyOp, hn]

theorem calculator_correct_witness :
    ¬(Op.add = Op.div ∧ (2 : Rat) = 0)
    ∧ calculator 1 2 Op.add =
        .ok { content := [ContentItem.text "1 + 2 = 3"],
              structuredContent := { content := [ContentItem.text "1 + 2 = 3"] } } := by
  have h := calculator_correct 1 2 Op.add (by decide)
  have h3 : applyOp Op.add 1 2 = (3 : Rat) := by norm_num [applyOp]
  rw [h3] at h
  exact ⟨by decide, h.trans (by decide)⟩

/-- Claim C10: for every geocode invocation where the upstream returns a
non-empty result array whose first element has no display name (absent field
or empty string), the tool still succeeds and the rendered message uses the
original query string in place of the display name on the address line, while
showing the parsed latitude and longitude unchanged. -/
theorem geocode_display_name_fallback (query latS lonS : String) (rest : List GeoResult) :
    geocode query (GeoOutcome.ok ({ lat := latS, lon := lonS, display_name := none } :: rest)) =
      .ok { content := [ContentItem.text (geoAddressText query latS lonS)],
            structuredContent := { content := [ContentItem.text (geoAddressText query latS lonS)] } }
    ∧ geocode query (GeoOutcome.ok ({ lat := latS, lon := lonS, display_name := some "" } :: rest)) =
      .ok { content := [ContentItem.text (geoAddressText query latS lonS)],
            structuredContent := { content := [ContentItem.text (geoAddressText query latS lonS)] } } := by
  constructor <;> simp [geocode, jsOrStr, geoAddressText]

theorem opFailedShape_of_eq (opName lit inner : String)
    (h : lit = opName ++ " 실패: ") : opFailedShape (lit ++ inner) :=
  ⟨opName, inner, by rw [h]⟩

/-- Claim C2 counterexample: the calculator's division-by-zero failure reaches
the client as the raw cause message `0으로 나눌 수 없습니다.`, which has no
operation-naming prefix: it is not of the `"<operation> failed: <cause>"`
form, so the claimed error-shape policy does not hold for every tool. -/
theorem error_shape_counterexample :
    calculator 1 0 Op.div = .error "0으로 나눌 수 없습니다."
    ∧ ¬ opFailedShape "0으로 나눌 수 없습니다." := by
  refine ⟨by simp [calculator, calcResult], ?_⟩
  rintro ⟨op, cause, h⟩
  have hs : '실' ∈ (op ++ " 실패: " ++ cause).data := by
    rw [data_append_eq, data_append_eq]
    refine List.mem_append.mpr (Or.inl (List.mem_append.mpr (Or.inr ?_)))
    decide
  rw [← h] at hs
  exact absurd hs (by decide)

/-- Claim C2 amended: the geocode, get-weather and generate-image handlers
re-express every handler-level failure as a single human-readable message of
the `"<operation> 실패: <cause>"` form, and only message strings cross the
boundary; the calculator however surfaces its division-by-zero cause message
raw, with no operation prefix, and the time tool surfaces
`유효하지 않은 타임존입니다: <timezone>`, which names the cause but not in the
`"<operation> failed: <cause>"` form. -/
theorem error_shape_amended :
    (∀ number1 number2 operator m, calculator number1 number2 operator = .error m →
      m = "0으로 나눌 수 없습니다.")
    ∧ (∀ timezone fmt m, time timezone fmt = .error m →
        m = "유효하지 않은 타임존입니다: " ++ timezone)
    ∧ (∀ query resp m, geocode query resp = .error m → opFailedShape m)
    ∧ (∀ latitude longitude forecast_days dateFmt resp m,
        getWeather latitude longitude forecast_days dateFmt resp = .error m → opFailedShape m)
    ∧ (∀ prompt hfToken inference m,
        (generateImage prompt hfToken inference).1 = .error m → opFailedShape m) := by
  refine ⟨?_, ?_, ?_, ?_, ?_⟩
  · intro number1 number2 operator m h
    cases operator with
    | add => simp [calculator, calcResult] at h
    | sub => simp [calculator, calcResult] at h
    | mul => simp [calculator, calcResult] at h
    | div =>
      by_cases hz : number2 = 0
      · simp [calculator, calcResult, hz] at h
        exact h.symm
      · simp [calculator, calcResult, hz] at h
  · intro timezone fmt m h
    cases fmt with
    | error u => simpa [time] using h.symm
    | ok s => simp [time] at h
  · intro query resp m h
    rcases resp with ⟨st, sx⟩ | data
    · simp [geocode] at h
      exact h ▸ opFailedShape_of_eq "지오코딩" _ _ (by decide)
    · rcases data with _ | ⟨r, rest⟩ <;> simp [geocode] at h
  · intro latitude longitude forecast_days dateFmt resp m h
    rcases resp with ⟨st, sx⟩ | data
    · simp [getWeather] at h
      exact h ▸ opFailedShape_of_eq "날씨 정보 조회" _ _ (by decide)
    · rcases hb : data.error with _ | _
      · simp [getWeather, hb] at h
      · simp [getWeather, hb] at h
        exact h ▸ opFailedShape_of_eq "날씨 정보 조회" _ _ (by decide)
  · intro prompt hfToken inference m h
    rcases hfToken with _ | token
    · simp [generateImage] at h
      exact h ▸
        ⟨"이미지 생성",
         "HF_TOKEN이 설정되지 않았습니다. 이미지 생성을 사용하려면 Hugging Face 토큰을 설정해주세요.",
         by decide⟩
    · rcases hi : inference token prompt with e | bytes
      · simp [generateImage, hi] at h
        exact h ▸ opFailedShape_of_eq "이미지 생성" _ _ (by decide)
      · simp [generateImage, hi] at h

theorem error_shape_amended_witness :
    geocode "Seoul" (GeoOutcome.fail 500 "Internal Server Error") =
      .error "지오코딩 실패: API 요청 실패: 500 Internal Server Error"
    ∧ opFailedShape "지오코딩 실패: API 요청 실패: 500 Internal Server Error" :=
  ⟨by decide,
   error_shape_amended.2.2.1 "Seoul" (GeoOutcome.fail 500 "Internal Server Error") _ (by decide)⟩

/-- Claim C5: the time tool, given a timezone identifier the renderer rejects
(any renderer failure is treated as this error kind), fails with the
invalid-timezone error; given `UTC` it succeeds and the formatted timestamp
matches the fixed display format: a 4-digit year, then `-`, then 2-digit
month/day/hour/minute/second fields on a 24-hour clock.  The renderer itself
is the JS runtime's `Intl` formatter, modelled by `intlFormatTime`. -/
theorem time_tool_spec (timezone : String) (dt : DateTime)
    (h1 : 1000 ≤ dt.year) (h2 : dt.year ≤ 9999) :
    time timezone (.error ()) = .error ("유효하지 않은 타임존입니다: " ++ timezone)
    ∧ time "UTC" (.ok (intlFormatTime dt)) =
        .ok { content := [ContentItem.text ("UTC" ++ "의 현재 시간: " ++ intlFormatTime dt)],
              structuredContent :=
                { content := [ContentItem.text ("UTC" ++ "의 현재 시간: " ++ intlFormatTime dt)] } }
    ∧ matchesClockFormat (intlFormatTime dt) = true := by
  refine ⟨rfl, rfl, ?_⟩
  simp [matchesClockFormat, intlFormatTime, digitChar_mod_ten_isDigit]

theorem time_tool_spec_witness :
    1000 ≤ (2025 : Nat) ∧ (2025 : Nat) ≤ 9999
    ∧ (time "Not/AZone" (.error ()) = .error ("유효하지 않은 타임존입니다: " ++ "Not/AZone")
       ∧ time "UTC" (.ok (intlFormatTime ⟨2025, 12, 15, 13, 5, 22⟩)) =
           .ok { content :=
                   [ContentItem.text ("UTC" ++ "의 현재 시간: " ++ intlFormatTime ⟨2025, 12, 15, 13, 5, 22⟩)],
                 structuredContent :=
                   { content :=
                       [ContentItem.text ("UTC" ++ "의 현재 시간: " ++ intlFormatTime ⟨2025, 12, 15, 13, 5, 22⟩)] } }
       ∧ matchesClockFormat (intlFormatTime ⟨2025, 12, 15, 13, 5, 22⟩) = true) :=
  ⟨by decide, by decide,
   time_tool_spec "Not/AZone" ⟨2025, 12, 15, 13, 5, 22⟩ (by decide) (by decide)⟩

/-- Claim C6: a geocode invocation whose upstream call succeeds with an empty
result array returns a successful (not failed) response whose single text item
is the no-results message containing the original query; when the array has a
first element with `lat`, `lon` and a (non-empty) `display_name`, the returned
message contains the parsed latitude, the parsed longitude and the display
name. -/
theorem geocode_results (query latS lonS dn : String) (rest : List GeoResult)
    (hdn : dn ≠ "") :
    (geocode query (GeoOutcome.ok []) =
        .ok { content := [ContentItem.text (geoNoResultsText query)],
              structuredContent := { content := [ContentItem.text (geoNoResultsText query)] } }
      ∧ strOccurs query (geoNoResultsText query) = true)
    ∧ (geocode query (GeoOutcome.ok ({ lat := latS, lon := lonS, display_name := some dn } :: rest)) =
        .ok { content := [ContentItem.text (geoAddressText dn latS lonS)],
              structuredContent := { content := [ContentItem.text (geoAddressText dn latS lonS)] } }
      ∧ strOccurs (jsNumToString (jsParseFloat latS)) (geoAddressText dn latS lonS) = true
      ∧ strOccurs (jsNumToString (jsParseFloat lonS)) (geoAddressText dn latS lonS) = true
      ∧ strOccurs dn (geoAddressText dn latS lonS) = true) := by
  refine ⟨⟨by simp [geocode, geoNoResultsText], ?_⟩,
          by simp [geocode, jsOrStr, hdn, geoAddressText], ?_, ?_, ?_⟩
  · exact strOccurs_of_data query _ ("\"" : String).data
      ("\"에 대한 검색 결과를 찾을 수 없습니다." : String).data
      (by simp [geoNoResultsText, data_append_eq])
  · exact strOccurs_of_data _ _
      (("주소: " : String).data ++ dn.data ++ ("\n위도: " : String).data)
      (("\n경도: " ++ jsNumToString (jsParseFloat lonS) ++ "\n좌표: (" ++
        jsNumToString (jsParseFloat latS) ++ ", " ++
        jsNumToString (jsParseFloat lonS) ++ ")").data)
      (by simp [geoAddressText, data_append_eq])
  · exact strOccurs_of_data _ _
      (("주소: " : String).data ++ dn.data ++ ("\n위도: " : String).data ++
        (jsNumToString (jsParseFloat latS)).data ++ ("\n경도: " : String).data)
      (("\n좌표: (" ++ jsNumToString (jsParseFloat latS) ++ ", " ++
        jsNumToString (jsParseFloat lonS) ++ ")").data)
      (by simp [geoAddressText, data_append_eq])
  · exact strOccurs_of_data _ _
      ("주소: " : String).data
      (("\n위도: " ++ jsNumToString (jsParseFloat latS) ++ "\n경도: " ++
        jsNumToString (jsParseFloat lonS) ++ "\n좌표: (" ++
        jsNumToString (jsParseFloat latS) ++ ", " ++
        jsNumToString (jsParseFloat lonS) ++ ")").data)
      (by simp [geoAddressText, data_append_eq])

theorem geocode_results_witness :
    ("Seoul" : String) ≠ ""
    ∧ strOccurs "37.5" (geoAddressText "Seoul" "37.5" "127.0") = true
    ∧ strOccurs "127" (geoAddressText "Seoul" "37.5" "127.0") = true
    ∧ strOccurs "Seoul" (geoAddressText "Seoul" "37.5" "127.0") = true
    ∧ ((geocode "Seoul" (GeoOutcome.ok []) =
          .ok { content := [ContentItem.text (geoNoResultsText "Seoul")],
                structuredContent := { content := [ContentItem.text (geoNoResultsText "Seoul")] } }
        ∧ strOccurs "Seoul" (geoNoResultsText "Seoul") = true)
       ∧ (geocode "Seoul" (GeoOutcome.ok [{ lat := "37.5", lon := "127.0", display_name := some "Seoul" }]) =
            .ok { content := [ContentItem.text (geoAddressText "Seoul" "37.5" "127.0")],
                  structuredContent :=
                    { content := [ContentItem.text (geoAddressText "Seoul" "37.5" "127.0")] } }
          ∧ strOccurs (jsNumToString (jsParseFloat "37.5")) (geoAddressText "Seoul" "37.5" "127.0") = true
          ∧ strOccurs (jsNumToString (jsParseFloat "127.0")) (geoAddressText "Seoul" "37.5" "127.0") = true
          ∧ strOccurs "Seoul" (geoAddressText "Seoul" "37.5" "127.0") = true)) :=
  ⟨by decide, by decide, by decide, by decide,
   geocode_results "Seoul" "37.5" "127.0" "Seoul" [] (by decide)⟩

/-- Claim C7: for every successful get-weather invocation with forecast
horizon `forecast_days` and an upstream `daily.time` array `ts`, the rendered
text consists of the current-conditions section followed by the forecast
heading and the joined per-day blocks, and the number of per-day blocks is
exactly `min forecast_days ts.length` — never more. -/
theorem weather_block_count (latitude longitude : Rat) (forecast_days : Nat)
    (dateFmt : String → String) (data : WeatherData) (dly : Daily) (ts : List String)
    (he : data.error = false) (hd : data.daily = some dly) (ht : dly.time = some ts) :
    (weatherDayBlocks dateFmt dly ts forecast_days).length = min forecast_days ts.length
    ∧ getWeather latitude longitude forecast_days dateFmt (.ok data) =
        .ok { content :=
                [ContentItem.text (weatherText latitude longitude forecast_days dateFmt data)],
              structuredContent :=
                { content :=
                    [ContentItem.text (weatherText latitude longitude forecast_days dateFmt data)] } }
    ∧ weatherText latitude longitude forecast_days dateFmt data =
        weatherCurrent latitude longitude forecast_days data ++
          ("📅 " ++ Nat.repr forecast_days ++ "일 예보\n" ++ dividerLine ++ "\n" ++
            joinBlocks (weatherDayBlocks dateFmt dly ts forecast_days)) := by
  refine ⟨by simp [weatherDayBlocks], ?_, ?_⟩
  · simp [getWeather, he]
  · simp [weatherText, hd, ht]

/-- Concrete 10-day upstream daily data used to exercise the weather claim. -/
def exDaily : Daily :=
  { time := some ["2025-12-15", "2025-12-16", "2025-12-17", "2025-12-18", "2025-12-19",
      "2025-12-20", "2025-12-21", "2025-12-22", "2025-12-23", "2025-12-24"],
    temperature_2m_max := some [1, 2, 3, 4, 5, 6, 7, 8, 9, 10],
    temperature_2m_min := some [0, 1, 2, 3, 4, 5, 6, 7, 8, 9],
    precipitation_sum := some [0, 0, 1, 0, 2, 0, 0, 3, 0, 0],
    weather_code := some [0, 1, 2, 3, 45, 61, 71, 80, 95, 99] }

/-- Concrete upstream weather response holding `exDaily`. -/
def exWeatherData : WeatherData := { error := false, daily := some exDaily }

theorem weather_block_count_witness :
    exWeatherData.error = false
    ∧ exWeatherData.daily = some exDaily
    ∧ exDaily.time = some (exDaily.time.getD [])
    ∧ (weatherDayBlocks (fun s => s) exDaily (exDaily.time.getD []) 3).length = 3
    ∧ ((weatherDayBlocks (fun s => s) exDaily (exDaily.time.getD []) 3).length =
        min 3 (exDaily.time.getD []).length
      ∧ getWeather 37 127 3 (fun s => s) (.ok exWeatherData) =
          .ok { content := [ContentItem.text (weatherText 37 127 3 (fun s => s) exWeatherData)],
                structuredContent :=
                  { content := [ContentItem.text (weatherText 37 127 3 (fun s => s) exWeatherData)] } }
      ∧ weatherText 37 127 3 (fun s => s) exWeatherData =
          weatherCurrent 37 127 3 exWeatherData ++
            ("📅 " ++ Nat.repr 3 ++ "일 예보\n" ++ dividerLine ++ "\n" ++
              joinBlocks (weatherDayBlocks (fun s => s) exDaily (exDaily.time.getD []) 3))) :=
  ⟨rfl, rfl, rfl, by decide,
   weather_block_count 37 127 3 (fun s => s) exWeatherData exDaily
     (exDaily.time.getD []) rfl rfl rfl⟩

/-- Claim C8: for every generate-image invocation where the process
configuration carries no credential (`HF_TOKEN` absent), the tool fails with
the missing-credential error before any network call is attempted: for every
inference oracle the result is the same wrapped error and the trace of issued
inference requests is empty. -/
theorem missing_token_no_call (prompt : String)
    (inference : String → String → Except String (List Nat)) :
    generateImage prompt none inference =
      (.error ("이미지 생성 실패: " ++
        "HF_TOKEN이 설정되지 않았습니다. 이미지 생성을 사용하려면 Hugging Face 토큰을 설정해주세요."), []) :=
  rfl

/-- Claim C9 counterexample: the server-info listing does not match the
registered input contracts exactly: the `forecast_days` parameter of
`get-weather` is declared with an integer constraint in the contract
(`z.number().int()`), but the listing's metadata for it carries no integer
constraint. -/
theorem server_info_counterexample :
    serverInfoTools ≠ registeredTools
    ∧ Option.map ParamSpec.isInt
        (((registeredTools.lookup "get-weather").getD []).lookup "forecast_days") = some true
    ∧ Option.map ParamSpec.isInt
        (((serverInfoTools.lookup "get-weather").getD []).lookup "forecast_days") = some false := by
  refine ⟨by decide, by decide, by decide⟩

/-- Claim C9 amended: the advertised tool list has length 6, equal to the
number of registered tools, and each entry's per-field parameter metadata
(type, enumeration, optionality, default, numeric bounds) matches the
corresponding tool's declared input contract exactly except for the integer
constraint on `get-weather.forecast_days`, which is present in the contract
but missing from the listing: the listing equals the contracts with the
integer constraint erased. -/
theorem server_info_amended :
    serverInfoTools =
      registeredTools.map (fun t => (t.1, t.2.map (fun p => (p.1, eraseInt p.2))))
    ∧ serverInfoTools.length = serverInfoTotalTools
    ∧ registeredTools.length = serverInfoTotalTools := by
  refine ⟨by decide, by decide, by decide⟩

end Mcp
